import Mathlib

/-!
A shallow embedding of the feed-aggregation and per-item comment-cache
logic of `src/App.tsx` (the `App` React component): the post/user join
performed inside `fetchInitialData`, and the `handleToggleComments`
handler together with the button gating (`disabled={post.commentsLoading}`)
through which it is invoked.  React state is modelled as an explicit
`Sys` record; each in-flight comment fetch is a `Pending` record that
captures exactly what the closure in the source captures at issue time
(the target id, the index found by `findIndex`, the pre-toggle post
object `currentPost`, and the local `updatedPosts` array as published at
loading start); fetch completions (`Event.resolve` / `Event.reject`)
replay the code that runs after the `await`.
-/

namespace App

structure User where
  id : Nat
  username : String
  deriving DecidableEq

structure Comment where
  postId : Nat
  id : Nat
  name : String
  email : String
  body : String
  deriving DecidableEq

structure Post where
  id : Nat
  userId : Nat
  title : String
  body : String
  deriving DecidableEq

/-- The enriched item `PostWithAuthorAndComments` of the source: a `Post`
plus the resolved `username` and the three optional comment-lifecycle
fields.  In TypeScript `comments`, `commentsLoading` and
`areCommentsVisible` are optional; an absent boolean is falsy, so the two
flags are modelled as `Bool` with `false` for "absent", and the optional
array as `Option (List Comment)`. -/
structure PostWithAuthorAndComments where
  id : Nat
  userId : Nat
  title : String
  body : String
  username : String
  comments : Option (List Comment) := none
  commentsLoading : Bool := false
  areCommentsVisible : Bool := false
  deriving DecidableEq

/-- The `usersMap` lookup built in `fetchInitialData`:
`new Map(usersData.map(user => [user.id, user.username])).get(k)`.
The `Map` constructor inserts the pairs in order, so a later duplicate id
overwrites an earlier one; `get` therefore returns the username of the
last user whose id matches, or `none` (JS `undefined`) when no user
matches. -/
def usersMapGet (usersData : List User) (k : Nat) : Option String :=
  (usersData.reverse.find? (fun user => user.id == k)).map User.username

/-- JS `v || d` specialised to `v : string | undefined`: `undefined` and
the empty string are exactly the falsy values of that type, and `||`
yields `d` precisely on them. -/
def jsOrString (v : Option String) (d : String) : String :=
  match v with
  | some s => if s = "" then d else s
  | none => d

/-- The join performed by `fetchInitialData` once both initial fetches
have landed:
`postsData.map(post => ({ ...post, username: usersMap.get(post.userId) || 'Usuário Desconhecido' }))`.
The spread copies the four `Post` fields; the comment-lifecycle fields
are not mentioned and therefore start out absent/false. -/
def combinedPosts (postsData : List Post) (usersData : List User) :
    List PostWithAuthorAndComments :=
  postsData.map (fun post =>
    { id := post.id, userId := post.userId, title := post.title,
      body := post.body,
      username := jsOrString (usersMapGet usersData post.userId) "Usuário Desconhecido" })

/-- JS `Array.prototype.findIndex`, with the not-found result `-1`
rendered as `none`. -/
def findIndex {α : Type _} (p : α → Bool) : List α → Option Nat
  | [] => none
  | a :: as => if p a then some 0 else (findIndex p as).map (fun n => n + 1)

/-- The data captured by the closure of `handleToggleComments` at the
moment the fetch is issued: the argument `postId`, the index found by
`findIndex` at issue time, the pre-toggle `currentPost`, and the local
`updatedPosts` array exactly as it was published via `setPosts` just
before the `await` (the issue-time snapshot with the addressed index set
to the loading version). -/
structure Pending where
  postId : Nat
  postIndex : Nat
  currentPost : PostWithAuthorAndComments
  updatedPosts : List PostWithAuthorAndComments
  deriving DecidableEq

/-- The synchronous part of `handleToggleComments(postId)`, up to the
`await`: find the post by id (`findIndex`), return unchanged if absent;
if `currentPost.comments` is truthy (any array, even empty) flip
`areCommentsVisible` and issue no fetch; otherwise publish the loading
version and issue the fetch, returning the captured `Pending`. -/
def handleToggleComments (posts : List PostWithAuthorAndComments)
    (postId : Nat) : List PostWithAuthorAndComments × Option Pending :=
  match findIndex (fun p => p.id == postId) posts with
  | none => (posts, none)
  | some postIndex =>
      match posts.get? postIndex with
      | none => (posts, none)
      | some currentPost =>
          if currentPost.comments.isSome then
            (posts.set postIndex
              { currentPost with areCommentsVisible := !currentPost.areCommentsVisible },
             none)
          else
            let updatedPosts :=
              posts.set postIndex { currentPost with commentsLoading := true }
            (updatedPosts,
             some { postId := postId, postIndex := postIndex,
                    currentPost := currentPost, updatedPosts := updatedPosts })

/-- The code after a successful `await fetch(...)`:
`updatedPosts[postIndex] = { ...currentPost, comments: commentsData, commentsLoading: false, areCommentsVisible: true }; setPosts(updatedPosts)`.
Note that it writes into the issue-time `updatedPosts` snapshot and
publishes that whole array, not the current state. -/
def completeSuccess (pend : Pending) (commentsData : List Comment) :
    List PostWithAuthorAndComments :=
  pend.updatedPosts.set pend.postIndex
    { pend.currentPost with comments := some commentsData,
                            commentsLoading := false,
                            areCommentsVisible := true }

/-- The `catch` branch:
`updatedPosts[postIndex] = { ...currentPost, commentsLoading: false }; setPosts(updatedPosts)`. -/
def completeFailure (pend : Pending) : List PostWithAuthorAndComments :=
  pend.updatedPosts.set pend.postIndex
    { pend.currentPost with commentsLoading := false }

/-- The rendered toggle button of the post with the given id carries
`disabled={post.commentsLoading}`; a post that is not in the list has no
button at all. -/
def buttonDisabled (posts : List PostWithAuthorAndComments) (postId : Nat) :
    Bool :=
  match posts.find? (fun p => p.id == postId) with
  | some p => p.commentsLoading
  | none => true

/-- Committed React state: the `posts` collection plus the multiset of
in-flight comment fetches (indexed by position for event selection). -/
structure Sys where
  posts : List PostWithAuthorAndComments
  pending : List Pending
  deriving DecidableEq

/-- Events of the single-threaded cooperative schedule: a user click on
the toggle button of the post with the given id, or the resolution
(success with a comment list) or rejection (failure) of the `k`-th
in-flight fetch. -/
inductive Event where
  | click (postId : Nat)
  | resolve (k : Nat) (commentsData : List Comment)
  | reject (k : Nat)
  deriving DecidableEq

/-- One scheduler step.  A click reaches `handleToggleComments` only if
the button is enabled; a completion removes its `Pending` and publishes
the array computed by the corresponding post-`await` code.  Completion
events whose index is out of range are no-ops (there is no such fetch in
flight). -/
def step (s : Sys) (e : Event) : Sys :=
  match e with
  | Event.click postId =>
      if buttonDisabled s.posts postId then s
      else
        let r := handleToggleComments s.posts postId
        { posts := r.1, pending := s.pending ++ r.2.toList }
  | Event.resolve k commentsData =>
      match s.pending.get? k with
      | none => s
      | some pend =>
          { posts := completeSuccess pend commentsData,
            pending := s.pending.eraseIdx k }
  | Event.reject k =>
      match s.pending.get? k with
      | none => s
      | some pend =>
          { posts := completeFailure pend,
            pending := s.pending.eraseIdx k }

/-- Run a sequence of events from a state. -/
def run (s : Sys) (es : List Event) : Sys :=
  es.foldl step s

/-- Look up the post a toggle addresses, the way the handler does:
first `findIndex` match by id. -/
def itemOf (posts : List PostWithAuthorAndComments) (i : Nat) :
    Option PostWithAuthorAndComments :=
  match findIndex (fun p => p.id == i) posts with
  | none => none
  | some k => posts.get? k

/-- Whether processing event `e` in state `s` issues a comment fetch for
item id `i`: only an enabled click that reaches the fetch branch of
`handleToggleComments` with that target id does. -/
def issuesFetchFor (s : Sys) (e : Event) (i : Nat) : Bool :=
  match e with
  | Event.click postId =>
      if buttonDisabled s.posts postId then false
      else
        match (handleToggleComments s.posts postId).2 with
        | some pend => pend.postId == i
        | none => false
  | _ => false

/-- Number of comment fetches issued for item id `i` while running an
event sequence. -/
def countFetches : Sys → List Event → Nat → Nat
  | _, [], _ => 0
  | s, e :: es, i =>
      (if issuesFetchFor s e i then 1 else 0) + countFetches (step s e) es i

/-- Author-name resolution in the words of the specification (P1): the
display name of the author whose id equals the item's author id, last
write winning on duplicate ids, or the sentinel exactly when no such
author exists. -/
def specAuthorName (authors : List User) (authorId : Nat) : String :=
  match authors.reverse.find? (fun u => u.id == authorId) with
  | some u => u.username
  | none => "Usuário Desconhecido"

/-- Author-name resolution as the code actually behaves (amended spec):
as `specAuthorName`, except that an author whose display name is the
empty string also yields the sentinel (the `||` fallback fires on every
falsy looked-up value, not only on a missing id). -/
def specAuthorNameAmended (authors : List User) (authorId : Nat) : String :=
  match authors.reverse.find? (fun u => u.id == authorId) with
  | some u => if u.username = "" then "Usuário Desconhecido" else u.username
  | none => "Usuário Desconhecido"

/-- Event sequences of a single item's lifetime without failures: every
click addresses item `i` and no fetch is rejected (successful
completions of `i`'s fetches are the only other events that can occur,
since only clicks on `i` put fetches in flight). -/
def onlyItemNoFailure (i : Nat) (es : List Event) : Bool :=
  es.all (fun e =>
    match e with
    | Event.click j => j == i
    | Event.resolve _ _ => true
    | Event.reject _ => false)

/-! Basic lemmas about `findIndex`, `List.get?`, `List.set` and
`List.find?` as the handler combines them. -/

theorem findIndex_get {α : Type _} (p : α → Bool) (l : List α) :
    ∀ (k : Nat) (a : α), findIndex p l = some k → l.get? k = some a →
      p a = true := by
  induction l with
  | nil => intro k a h _; simp [findIndex] at h
  | cons x xs ih =>
      intro k a h hg
      by_cases hx : p x
      · simp [findIndex, hx] at h
        subst h
        simp [List.get?] at hg
        subst hg
        exact hx
      · simp [findIndex, hx, Option.map_eq_some'] at h
        obtain ⟨k', h1, h2⟩ := h
        subst h2
        exact ih k' a h1 (by simpa [List.get?] using hg)

theorem findIndex_set {α : Type _} (p : α → Bool) (l : List α) :
    ∀ (k : Nat) (a : α), findIndex p l = some k → p a = true →
      findIndex p (l.set k a) = some k := by
  induction l with
  | nil => intro k a h _; simp [findIndex] at h
  | cons x xs ih =>
      intro k a h ha
      by_cases hx : p x
      · simp [findIndex, hx] at h
        subst h
        simp [List.set, findIndex, ha]
      · simp [findIndex, hx, Option.map_eq_some'] at h
        obtain ⟨k', h1, h2⟩ := h
        subst h2
        simp [List.set, findIndex, hx, ih k' a h1 ha]

theorem get_set_self {α : Type _} (l : List α) :
    ∀ (k : Nat) (a b : α), l.get? k = some b → (l.set k a).get? k = some a := by
  induction l with
  | nil => intro k a b h; simp [List.get?] at h
  | cons x xs ih =>
      intro k a b h
      cases k with
      | zero => simp [List.set, List.get?]
      | succ k' => simpa [List.set, List.get?] using ih k' a b (by simpa [List.get?] using h)

theorem set_of_get {α : Type _} (l : List α) :
    ∀ (k : Nat) (a : α), l.get? k = some a → l.set k a = l := by
  induction l with
  | nil => intro k a h; simp [List.get?] at h
  | cons x xs ih =>
      intro k a h
      cases k with
      | zero =>
          simp [List.get?] at h
          simp [List.set, h]
      | succ k' => simpa [List.set, List.get?] using ih k' a (by simpa [List.get?] using h)

theorem find_of_findIndex {α : Type _} (p : α → Bool) (l : List α) :
    ∀ (k : Nat) (a : α), findIndex p l = some k → l.get? k = some a →
      l.find? p = some a := by
  induction l with
  | nil => intro k a h _; simp [findIndex] at h
  | cons x xs ih =>
      intro k a h hg
      by_cases hx : p x
      · simp [findIndex, hx] at h
        subst h
        simp [List.get?] at hg
        subst hg
        simp [List.find?, hx]
      · simp [findIndex, hx, Option.map_eq_some'] at h
        obtain ⟨k', h1, h2⟩ := h
        subst h2
        have hx' : p x = false := by simpa using hx
        simp only [List.find?, hx']
        exact ih k' a h1 (by simpa [List.get?] using hg)

theorem find_none_of_findIndex_none {α : Type _} (p : α → Bool) (l : List α) :
    findIndex p l = none → l.find? p = none := by
  induction l with
  | nil => intro _; simp
  | cons x xs ih =>
      intro h
      by_cases hx : p x
      · simp [findIndex, hx] at h
      · simp [findIndex, hx] at h
        have hx' : p x = false := by simpa using hx
        simp only [List.find?, hx']
        exact ih h

/-! Concrete refutations: traces on which the code falsifies a claimed
property, evaluated definitionally. -/

/-- Claim C1, counterexample to the claim as stated: for a feed with the
single item of id 1, the toggle sequence click / fetch fails / click
issues the comment fetch twice over the item's lifetime — after the
failed fetch the item is back to `Absent`, its button re-enables, and
the next toggle retries the fetch.  So the fetch is not issued at most
once over the item's entire lifetime. -/
theorem toggle_single_fetch_cex :
    countFetches
      (⟨[{ id := 1, userId := 10, title := "t1", body := "b1",
             username := "ana" }], []⟩ : Sys)
      [Event.click 1, Event.reject 0, Event.click 1] 1 = 2 ∧ ¬ (2 ≤ 1) :=
  ⟨by decide, by decide⟩

/-- Claim C2: the claim fails on the code.  Toggle item 1 (fetch in
flight), then toggle item 2 and let item 2's fetch resolve; when item
1's fetch then completes, `completeSuccess` publishes the `updatedPosts`
array captured at issue time, so item 2 — loaded and visible immediately
before item 1's completion — is reverted to its pre-toggle state: its
just-loaded comments, loading flag and visibility are not left as they
were. -/
theorem stale_completion_clobbers_sibling :
    itemOf (run (⟨
        [{ id := 1, userId := 10, title := "tA", body := "bA", username := "maria" },
         { id := 2, userId := 20, title := "tB", body := "bB", username := "joao" }],
        []⟩ : Sys)
      [Event.click 1, Event.click 2,
       Event.resolve 1 [{ postId := 2, id := 200, name := "nB", email := "eB", body := "cB" }]]).posts 2 =
      some { id := 2, userId := 20, title := "tB", body := "bB", username := "joao",
             comments := some [{ postId := 2, id := 200, name := "nB", email := "eB", body := "cB" }],
             commentsLoading := false, areCommentsVisible := true } ∧
    itemOf (run (⟨
        [{ id := 1, userId := 10, title := "tA", body := "bA", username := "maria" },
         { id := 2, userId := 20, title := "tB", body := "bB", username := "joao" }],
        []⟩ : Sys)
      [Event.click 1, Event.click 2,
       Event.resolve 1 [{ postId := 2, id := 200, name := "nB", email := "eB", body := "cB" }],
       Event.resolve 0 [{ postId := 1, id := 100, name := "nA", email := "eA", body := "cA" }]]).posts 2 =
      some { id := 2, userId := 20, title := "tB", body := "bB", username := "joao",
             comments := none, commentsLoading := false, areCommentsVisible := false } ∧
    (some [{ postId := 2, id := 200, name := "nB", email := "eB", body := "cB" }] :
      Option (List Comment)) ≠ none :=
  ⟨by decide, by decide, by decide⟩

/-- Claim C6: the claim fails on the code.  Item 4's comment collection
is set to the empty sequence by its successful fetch; the later
completion of item 3's fetch (issued earlier) publishes its stale
issue-time snapshot and returns item 4's collection to absent within the
session. -/
theorem comments_cleared_by_stale_completion :
    (itemOf (run (⟨
        [{ id := 3, userId := 30, title := "t3", body := "b3", username := "u3" },
         { id := 4, userId := 40, title := "t4", body := "b4", username := "u4" }],
        []⟩ : Sys)
      [Event.click 3, Event.click 4, Event.resolve 1 []]).posts 4).map
        PostWithAuthorAndComments.comments = some (some []) ∧
    (itemOf (run (⟨
        [{ id := 3, userId := 30, title := "t3", body := "b3", username := "u3" },
         { id := 4, userId := 40, title := "t4", body := "b4", username := "u4" }],
        []⟩ : Sys)
      [Event.click 3, Event.click 4, Event.resolve 1 [],
       Event.resolve 0 [{ postId := 3, id := 300, name := "n3", email := "e3", body := "c3" }]]).posts 4).map
        PostWithAuthorAndComments.comments = some none ∧
    (some ([] : List Comment) : Option (List Comment)) ≠ none :=
  ⟨by decide, by decide, by decide⟩

/-- Claim C7: the claim fails on the code in both completion orders.
Items 5 and 6 have fetches in flight concurrently; item 5's fetch fails
and item 6's succeeds.  If item 5 fails first, item 6's later success
publishes its stale snapshot and leaves item 5 with `commentsLoading`
stuck `true` — not `Absent`.  If item 6 succeeds first, item 5's later
failure publishes its stale snapshot and reverts item 6 to no comments —
not `Loaded{visible=true}`. -/
theorem failure_isolation_violated :
    ((itemOf (run (⟨
        [{ id := 5, userId := 50, title := "t5", body := "b5", username := "u5" },
         { id := 6, userId := 60, title := "t6", body := "b6", username := "u6" }],
        []⟩ : Sys)
      [Event.click 5, Event.click 6, Event.reject 0,
       Event.resolve 0 [{ postId := 6, id := 600, name := "n6", email := "e6", body := "c6" }]]).posts 5).map
        PostWithAuthorAndComments.commentsLoading = some true) ∧
    ((itemOf (run (⟨
        [{ id := 5, userId := 50, title := "t5", body := "b5", username := "u5" },
         { id := 6, userId := 60, title := "t6", body := "b6", username := "u6" }],
        []⟩ : Sys)
      [Event.click 5, Event.click 6,
       Event.resolve 1 [{ postId := 6, id := 600, name := "n6", email := "e6", body := "c6" }],
       Event.reject 0]).posts 6).map
        PostWithAuthorAndComments.comments = some none) ∧
    (some true ≠ (some false : Option Bool)) :=
  ⟨by decide, by decide, by decide⟩

/-- Claim C8: the claim fails on the code.  With item 8 loaded and item
7's fetch still in flight, item 7's completion publishes the issue-time
snapshot with only index 0 replaced; relative to the collection current
at that moment this transition also changes item 8's element (index 1),
so the published mutation does not replace exactly the one addressed
element, and a holder of the pre-completion collection does not observe
item 8 unchanged. -/
theorem completion_not_single_replace :
    (run (⟨
        [{ id := 7, userId := 70, title := "t7", body := "b7", username := "u7" },
         { id := 8, userId := 80, title := "t8", body := "b8", username := "u8" }],
        []⟩ : Sys)
      [Event.click 7, Event.click 8,
       Event.resolve 1 [{ postId := 8, id := 800, name := "n8", email := "e8", body := "c8" }]]).pending.map
        Pending.postId = [7] ∧
    (run (⟨
        [{ id := 7, userId := 70, title := "t7", body := "b7", username := "u7" },
         { id := 8, userId := 80, title := "t8", body := "b8", username := "u8" }],
        []⟩ : Sys)
      [Event.click 7, Event.click 8,
       Event.resolve 1 [{ postId := 8, id := 800, name := "n8", email := "e8", body := "c8" }]]).posts.get? 1 =
      some { id := 8, userId := 80, title := "t8", body := "b8", username := "u8",
             comments := some [{ postId := 8, id := 800, name := "n8", email := "e8", body := "c8" }],
             commentsLoading := false, areCommentsVisible := true } ∧
    (run (⟨
        [{ id := 7, userId := 70, title := "t7", body := "b7", username := "u7" },
         { id := 8, userId := 80, title := "t8", body := "b8", username := "u8" }],
        []⟩ : Sys)
      [Event.click 7, Event.click 8,
       Event.resolve 1 [{ postId := 8, id := 800, name := "n8", email := "e8", body := "c8" }],
       Event.resolve 0 [{ postId := 7, id := 700, name := "n7", email := "e7", body := "c7" }]]).posts.get? 1 =
      some { id := 8, userId := 80, title := "t8", body := "b8", username := "u8",
             comments := none, commentsLoading := false, areCommentsVisible := false } ∧
    ({ id := 8, userId := 80, title := "t8", body := "b8", username := "u8",
       comments := some [{ postId := 8, id := 800, name := "n8", email := "e8", body := "c8" }],
       commentsLoading := false, areCommentsVisible := true } :
        PostWithAuthorAndComments) ≠
      { id := 8, userId := 80, title := "t8", body := "b8", username := "u8",
        comments := none, commentsLoading := false, areCommentsVisible := false } :=
  ⟨by decide, by decide, by decide, by decide⟩

/-- Claim C3, counterexample to the claim as stated: an author with id
10 exists whose display name is the empty string, yet the aggregated
item's `username` is the sentinel, not that author's display name. -/
theorem aggregate_empty_name_cex :
    combinedPosts [{ id := 9, userId := 10, title := "t9", body := "b9" }]
        [{ id := 10, username := "" }] =
      [{ id := 9, userId := 10, title := "t9", body := "b9",
         username := "Usuário Desconhecido" }] ∧
    specAuthorName [{ id := 10, username := "" }] 10 = "" ∧
    "Usuário Desconhecido" ≠ "" :=
  ⟨by decide, by decide, by decide⟩

/-! General theorems about the aggregation and the toggle state machine. -/

/-- Claim C10: a toggle for an id that matches no item in the collection
is a total no-op — the handler returns the collection unchanged and
issues no fetch, and a click event leaves the whole system state
(collection and in-flight fetches) unchanged. -/
theorem unknown_id_noop (i : Nat) (ps : List PostWithAuthorAndComments)
    (pd : List Pending)
    (h : findIndex (fun q => q.id == i) ps = none) :
    handleToggleComments ps i = (ps, none) ∧
    step ⟨ps, pd⟩ (Event.click i) = ⟨ps, pd⟩ := by
  constructor
  · simp [handleToggleComments, h]
  · simp [step, buttonDisabled, find_none_of_findIndex_none _ _ h]

/-- Witness for `unknown_id_noop` at a concrete input. -/
theorem unknown_id_noop_witness :
    findIndex (fun q => q.id == 99)
      [({ id := 1, userId := 10, title := "t", body := "b", username := "u" } :
        PostWithAuthorAndComments)] = none ∧
    handleToggleComments
      [{ id := 1, userId := 10, title := "t", body := "b", username := "u" }] 99 =
      ([{ id := 1, userId := 10, title := "t", body := "b", username := "u" }], none) ∧
    step ⟨[{ id := 1, userId := 10, title := "t", body := "b", username := "u" }], []⟩
      (Event.click 99) =
      ⟨[{ id := 1, userId := 10, title := "t", body := "b", username := "u" }], []⟩ :=
  ⟨by decide,
   (unknown_id_noop 99
     [{ id := 1, userId := 10, title := "t", body := "b", username := "u" }]
     [] (by decide)).1,
   (unknown_id_noop 99
     [{ id := 1, userId := 10, title := "t", body := "b", username := "u" }]
     [] (by decide)).2⟩

/-- Claim C9: if the author lookup for an item's author id yields the
empty display name, the aggregated item gets the sentinel, not the empty
string — the `||` fallback fires on any falsy looked-up value, not only
on a missing author id. -/
theorem empty_username_sentinel (us : List User) (post : Post)
    (h : usersMapGet us post.userId = some "")
    (ps : List Post) (k : Nat) (hk : ps.get? k = some post) :
    ((combinedPosts ps us).get? k).map PostWithAuthorAndComments.username =
      some "Usuário Desconhecido" := by
  have hk' : ps[k]? = some post := by simpa using hk
  simp [combinedPosts, List.getElem?_map, hk', jsOrString, h]

/-- Witness for `empty_username_sentinel` at a concrete input. -/
theorem empty_username_sentinel_witness :
    usersMapGet [{ id := 10, username := "" }]
      (Post.userId { id := 9, userId := 10, title := "t", body := "b" }) = some "" ∧
    ([({ id := 9, userId := 10, title := "t", body := "b" } : Post)].get? 0 =
      some { id := 9, userId := 10, title := "t", body := "b" }) ∧
    ((combinedPosts [{ id := 9, userId := 10, title := "t", body := "b" }]
        [{ id := 10, username := "" }]).get? 0).map
      PostWithAuthorAndComments.username = some "Usuário Desconhecido" :=
  ⟨by decide, by decide,
   empty_username_sentinel [{ id := 10, username := "" }]
     { id := 9, userId := 10, title := "t", body := "b" } (by decide)
     [{ id := 9, userId := 10, title := "t", body := "b" }] 0 (by decide)⟩

/-- Agreement between the code's author-name resolution
(`Map.get` followed by `||`) and the amended specification lookup. -/
theorem jsOrString_usersMapGet (us : List User) (k : Nat) :
    jsOrString (usersMapGet us k) "Usuário Desconhecido" =
      specAuthorNameAmended us k := by
  unfold jsOrString usersMapGet specAuthorNameAmended
  cases us.reverse.find? (fun u => u.id == k) <;> simp

/-- Claim C3 (amended): the aggregation returns one output item per
input item in input order, and each output's `username` is the display
name of the author whose id equals the item's author id (last write
winning on duplicate ids), with the sentinel exactly when no such author
exists or the looked-up display name is the empty string. -/
theorem aggregate_spec_amended (ps : List Post) (us : List User) :
    (combinedPosts ps us).length = ps.length ∧
    ∀ k post, ps.get? k = some post →
      (combinedPosts ps us).get? k =
        some { id := post.id, userId := post.userId, title := post.title,
               body := post.body,
               username := specAuthorNameAmended us post.userId,
               comments := none, commentsLoading := false,
               areCommentsVisible := false } := by
  constructor
  · simp [combinedPosts]
  · intro k post hk
    have hk' : ps[k]? = some post := by simpa using hk
    simp [combinedPosts, List.getElem?_map, hk', jsOrString_usersMapGet]

/-- Witness for `aggregate_spec_amended` at a concrete input: one
matching author, one missing author id, one empty-named author. -/
theorem aggregate_spec_amended_witness :
    (combinedPosts
      [{ id := 1, userId := 10, title := "ta", body := "ba" },
       { id := 2, userId := 99, title := "tb", body := "bb" },
       { id := 3, userId := 11, title := "tc", body := "bc" }]
      [{ id := 10, username := "Ana" }, { id := 11, username := "" }]).length = 3 ∧
    ([({ id := 1, userId := 10, title := "ta", body := "ba" } : Post),
      { id := 2, userId := 99, title := "tb", body := "bb" },
      { id := 3, userId := 11, title := "tc", body := "bc" }].get? 0 =
      some { id := 1, userId := 10, title := "ta", body := "ba" }) ∧
    (combinedPosts
      [{ id := 1, userId := 10, title := "ta", body := "ba" },
       { id := 2, userId := 99, title := "tb", body := "bb" },
       { id := 3, userId := 11, title := "tc", body := "bc" }]
      [{ id := 10, username := "Ana" }, { id := 11, username := "" }]).get? 0 =
      some { id := 1, userId := 10, title := "ta", body := "ba",
             username := specAuthorNameAmended
               [{ id := 10, username := "Ana" }, { id := 11, username := "" }] 10,
             comments := none, commentsLoading := false,
             areCommentsVisible := false } :=
  ⟨(aggregate_spec_amended
      [{ id := 1, userId := 10, title := "ta", body := "ba" },
       { id := 2, userId := 99, title := "tb", body := "bb" },
       { id := 3, userId := 11, title := "tc", body := "bc" }]
      [{ id := 10, username := "Ana" }, { id := 11, username := "" }]).1,
   by decide,
   (aggregate_spec_amended
      [{ id := 1, userId := 10, title := "ta", body := "ba" },
       { id := 2, userId := 99, title := "tb", body := "bb" },
       { id := 3, userId := 11, title := "tc", body := "bc" }]
      [{ id := 10, username := "Ana" }, { id := 11, username := "" }]).2 0
      { id := 1, userId := 10, title := "ta", body := "ba" } (by decide)⟩

/-- Unfolding lemma: running one event then the rest. -/
theorem run_cons (s : Sys) (e : Event) (es : List Event) :
    run s (e :: es) = run (step s e) es := rfl

/-- Unfolding lemma for the fetch counter. -/
theorem countFetches_cons (s : Sys) (e : Event) (es : List Event) (i : Nat) :
    countFetches s (e :: es) i =
      (if issuesFetchFor s e i then 1 else 0) + countFetches (step s e) es i := rfl

/-- Rewriting `commentsLoading` to the value it already has is the
identity. -/
theorem setLoading_self (p : PostWithAuthorAndComments)
    (h : p.commentsLoading = false) :
    ({ p with commentsLoading := false } : PostWithAuthorAndComments) = p := by
  cases p
  simp_all

/-- Claim C4: when a single item's comment fetch fails and no other
toggles interleave, the collection returns exactly to its prior state —
the item's loading flag is cleared back to `false`, no comment
collection is set, its visibility flag keeps its prior value, and every
sibling item is untouched — and a subsequent toggle on that item issues
the fetch again. -/
theorem failure_returns_to_absent (i k0 : Nat)
    (p0 : PostWithAuthorAndComments) (ps : List PostWithAuthorAndComments)
    (h1 : findIndex (fun q => q.id == i) ps = some k0)
    (h2 : ps.get? k0 = some p0)
    (h3 : p0.comments = none)
    (h4 : p0.commentsLoading = false) :
    run ⟨ps, []⟩ [Event.click i, Event.reject 0] = ⟨ps, []⟩ ∧
    issuesFetchFor (run ⟨ps, []⟩ [Event.click i, Event.reject 0])
      (Event.click i) i = true := by
  have hfind : ps.find? (fun q => q.id == i) = some p0 :=
    find_of_findIndex _ _ _ _ h1 h2
  have h2' : ps[k0]? = some p0 := by simpa using h2
  have hbtn : buttonDisabled ps i = false := by
    simp [buttonDisabled, hfind, h4]
  have hstep1 : step ⟨ps, []⟩ (Event.click i) =
      ⟨ps.set k0 { p0 with commentsLoading := true },
       [⟨i, k0, p0, ps.set k0 { p0 with commentsLoading := true }⟩]⟩ := by
    simp [step, hbtn, handleToggleComments, h1, h2', h3]
  have hstep2 : step (⟨ps.set k0 { p0 with commentsLoading := true },
        [⟨i, k0, p0, ps.set k0 { p0 with commentsLoading := true }⟩]⟩ : Sys)
        (Event.reject 0) = ⟨ps, []⟩ := by
    simp [step, completeFailure, List.set_set, setLoading_self p0 h4,
      set_of_get ps k0 p0 h2, List.get?]
  have hmain : run ⟨ps, []⟩ [Event.click i, Event.reject 0] = ⟨ps, []⟩ := by
    rw [run_cons, hstep1, run_cons, hstep2]
    rfl
  refine ⟨hmain, ?_⟩
  rw [hmain]
  simp [issuesFetchFor, hbtn, handleToggleComments, h1, h2', h3]

/-- Witness for `failure_returns_to_absent` at a concrete input. -/
theorem failure_returns_to_absent_witness :
    findIndex (fun q => q.id == 1)
      [({ id := 1, userId := 10, title := "t", body := "b", username := "u" } :
        PostWithAuthorAndComments)] = some 0 ∧
    run ⟨[{ id := 1, userId := 10, title := "t", body := "b", username := "u" }], []⟩
        [Event.click 1, Event.reject 0] =
      ⟨[{ id := 1, userId := 10, title := "t", body := "b", username := "u" }], []⟩ :=
  ⟨by decide,
   (failure_returns_to_absent 1 0
      { id := 1, userId := 10, title := "t", body := "b", username := "u" }
      [{ id := 1, userId := 10, title := "t", body := "b", username := "u" }]
      (by decide) (by decide) (by decide) (by decide)).1⟩

/-- Updating `areCommentsVisible` twice keeps only the last value. -/
theorem visible_update (p : PostWithAuthorAndComments) (b c : Bool) :
    ({ { p with areCommentsVisible := b } with areCommentsVisible := c } :
      PostWithAuthorAndComments) = { p with areCommentsVisible := c } := rfl

/-- Iterating clicks on a loaded item: every click flips only the
visibility flag of the addressed item, caches and siblings are
untouched, and no fetch is issued. -/
theorem loaded_toggle_run (i : Nat) :
    ∀ (N : Nat) (ps : List PostWithAuthorAndComments) (k0 : Nat)
      (p0 : PostWithAuthorAndComments),
      findIndex (fun q => q.id == i) ps = some k0 →
      ps.get? k0 = some p0 →
      p0.comments.isSome = true →
      p0.commentsLoading = false →
      run ⟨ps, []⟩ (List.replicate N (Event.click i)) =
        ⟨ps.set k0 { p0 with areCommentsVisible :=
            if N % 2 = 0 then p0.areCommentsVisible
            else !p0.areCommentsVisible }, []⟩ ∧
      countFetches ⟨ps, []⟩ (List.replicate N (Event.click i)) i = 0 := by
  intro N
  induction N with
  | zero =>
      intro ps k0 p0 h1 h2 h3 h4
      refine ⟨?_, rfl⟩
      have : ({ p0 with areCommentsVisible := p0.areCommentsVisible } :
          PostWithAuthorAndComments) = p0 := rfl
      simp [run, List.replicate, this, set_of_get ps k0 p0 h2]
  | succ n ih =>
      intro ps k0 p0 h1 h2 h3 h4
      have h2' : ps[k0]? = some p0 := by simpa using h2
      have hfind : ps.find? (fun q => q.id == i) = some p0 :=
        find_of_findIndex _ _ _ _ h1 h2
      have hbtn : buttonDisabled ps i = false := by
        simp [buttonDisabled, hfind, h4]
      have hp : ((fun q => q.id == i) p0) = true :=
        findIndex_get (fun q => q.id == i) ps k0 p0 h1 h2
      have hstep : step ⟨ps, []⟩ (Event.click i) =
          ⟨ps.set k0 { p0 with areCommentsVisible := !p0.areCommentsVisible },
           []⟩ := by
        simp [step, hbtn, handleToggleComments, h1, h2', h3]
      have hissue : issuesFetchFor ⟨ps, []⟩ (Event.click i) i = false := by
        simp [issuesFetchFor, hbtn, handleToggleComments, h1, h2', h3]
      have hf1 : findIndex (fun q => q.id == i)
          (ps.set k0 { p0 with areCommentsVisible := !p0.areCommentsVisible }) =
            some k0 :=
        findIndex_set _ _ _ _ h1 hp
      have hg1 : (ps.set k0
          { p0 with areCommentsVisible := !p0.areCommentsVisible }).get? k0 =
            some { p0 with areCommentsVisible := !p0.areCommentsVisible } :=
        get_set_self ps k0 _ p0 h2
      obtain ⟨ihr, ihc⟩ := ih
        (ps.set k0 { p0 with areCommentsVisible := !p0.areCommentsVisible })
        k0 { p0 with areCommentsVisible := !p0.areCommentsVisible }
        hf1 hg1 h3 h4
      constructor
      · rw [List.replicate_succ, run_cons, hstep, ihr, List.set_set]
        rcases Nat.mod_two_eq_zero_or_one n with hn | hn
        · have hn' : (n + 1) % 2 = 1 := by omega
          simp [hn, hn', visible_update]
        · have hn' : (n + 1) % 2 = 0 := by omega
          simp [hn, hn', visible_update]
      · rw [List.replicate_succ, countFetches_cons, hstep, hissue, ihc]
        simp

/-- Claim C5: once an item is loaded (post-load visibility `true`,
loading flag clear), every further toggle on its id flips only
`areCommentsVisible` and issues no fetch; after N further toggles the
flag is `true` exactly when N is even and `false` when N is odd, the
cached comment collection and all siblings unchanged throughout. -/
theorem loaded_toggle_parity (i k0 N : Nat)
    (p0 : PostWithAuthorAndComments) (ps : List PostWithAuthorAndComments)
    (cs : List Comment)
    (h1 : findIndex (fun q => q.id == i) ps = some k0)
    (h2 : ps.get? k0 = some p0)
    (h3 : p0.comments = some cs)
    (h4 : p0.commentsLoading = false)
    (h5 : p0.areCommentsVisible = true) :
    run ⟨ps, []⟩ (List.replicate N (Event.click i)) =
      ⟨ps.set k0 { p0 with areCommentsVisible :=
          if N % 2 = 0 then true else false }, []⟩ ∧
    ({ p0 with areCommentsVisible :=
        if N % 2 = 0 then true else false } :
      PostWithAuthorAndComments).comments = some cs ∧
    countFetches ⟨ps, []⟩ (List.replicate N (Event.click i)) i = 0 := by
  obtain ⟨hr, hc⟩ := loaded_toggle_run i N ps k0 p0 h1 h2 (by simp [h3]) h4
  refine ⟨?_, by simpa using h3, hc⟩
  rw [hr, h5]
  rcases Nat.mod_two_eq_zero_or_one N with hn | hn <;> simp [hn]

/-- Witness for `loaded_toggle_parity` at a concrete input (N = 3,
an odd number of further toggles). -/
theorem loaded_toggle_parity_witness :
    ([({ id := 1, userId := 10, title := "t", body := "b", username := "u",
         comments := some [], commentsLoading := false,
         areCommentsVisible := true } : PostWithAuthorAndComments)].get? 0 =
      some { id := 1, userId := 10, title := "t", body := "b", username := "u",
             comments := some [], commentsLoading := false,
             areCommentsVisible := true }) ∧
    run ⟨[{ id := 1, userId := 10, title := "t", body := "b", username := "u",
            comments := some [], commentsLoading := false,
            areCommentsVisible := true }], []⟩
        (List.replicate 3 (Event.click 1)) =
      ⟨[({ id := 1, userId := 10, title := "t", body := "b", username := "u",
           comments := some [], commentsLoading := false,
           areCommentsVisible := true } :
          PostWithAuthorAndComments)].set 0
        { id := 1, userId := 10, title := "t", body := "b", username := "u",
          comments := some [], commentsLoading := false,
          areCommentsVisible := if 3 % 2 = 0 then true else false }, []⟩ ∧
    countFetches
      ⟨[{ id := 1, userId := 10, title := "t", body := "b", username := "u",
          comments := some [], commentsLoading := false,
          areCommentsVisible := true }], []⟩
      (List.replicate 3 (Event.click 1)) 1 = 0 :=
  ⟨by decide,
   (loaded_toggle_parity 1 0 3
      { id := 1, userId := 10, title := "t", body := "b", username := "u",
        comments := some [], commentsLoading := false,
        areCommentsVisible := true }
      [{ id := 1, userId := 10, title := "t", body := "b", username := "u",
         comments := some [], commentsLoading := false,
         areCommentsVisible := true }]
      [] (by decide) (by decide) (by decide) (by decide) (by decide)).1,
   (loaded_toggle_parity 1 0 3
      { id := 1, userId := 10, title := "t", body := "b", username := "u",
        comments := some [], commentsLoading := false,
        areCommentsVisible := true }
      [{ id := 1, userId := 10, title := "t", body := "b", username := "u",
         comments := some [], commentsLoading := false,
         areCommentsVisible := true }]
      [] (by decide) (by decide) (by decide) (by decide) (by decide)).2.2⟩

/-- Invariant of a single item's no-failure lifetime: starting from
`Absent` the fetch is issued at most once, and from the Loading or
Loaded states reached from it no further fetch is ever issued. -/
theorem single_item_fetch_invariant (i k0 : Nat)
    (p0 : PostWithAuthorAndComments) (ps : List PostWithAuthorAndComments)
    (h1 : findIndex (fun q => q.id == i) ps = some k0)
    (h2 : ps.get? k0 = some p0)
    (h3 : p0.comments = none)
    (h4 : p0.commentsLoading = false) :
    ∀ es : List Event, onlyItemNoFailure i es = true →
      countFetches ⟨ps, []⟩ es i ≤ 1 ∧
      countFetches ⟨ps.set k0 { p0 with commentsLoading := true },
                    [⟨i, k0, p0, ps.set k0 { p0 with commentsLoading := true }⟩]⟩
        es i = 0 ∧
      ∀ (cs : List Comment) (v : Bool),
        countFetches ⟨ps.set k0 { p0 with comments := some cs,
                                          commentsLoading := false,
                                          areCommentsVisible := v }, []⟩
          es i = 0 := by
  have h2' : ps[k0]? = some p0 := by simpa using h2
  have hp : ((fun q => q.id == i) p0) = true :=
    findIndex_get (fun q => q.id == i) ps k0 p0 h1 h2
  have hfindA : ps.find? (fun q => q.id == i) = some p0 :=
    find_of_findIndex _ _ _ _ h1 h2
  have hbtnA : buttonDisabled ps i = false := by
    simp [buttonDisabled, hfindA, h4]
  have hstepA : step ⟨ps, []⟩ (Event.click i) =
      ⟨ps.set k0 { p0 with commentsLoading := true },
       [⟨i, k0, p0, ps.set k0 { p0 with commentsLoading := true }⟩]⟩ := by
    simp [step, hbtnA, handleToggleComments, h1, h2', h3]
  have hissueA : issuesFetchFor ⟨ps, []⟩ (Event.click i) i = true := by
    simp [issuesFetchFor, hbtnA, handleToggleComments, h1, h2', h3]
  have hstepAres : ∀ (k : Nat) (cs : List Comment),
      step ⟨ps, []⟩ (Event.resolve k cs) = ⟨ps, []⟩ := by
    intro k cs
    simp [step, List.get?]
  have hfL : findIndex (fun q => q.id == i)
      (ps.set k0 { p0 with commentsLoading := true }) = some k0 :=
    findIndex_set _ _ k0 _ h1 hp
  have hgL : (ps.set k0 { p0 with commentsLoading := true }).get? k0 =
      some { p0 with commentsLoading := true } :=
    get_set_self ps k0 _ p0 h2
  have hfindL : (ps.set k0 { p0 with commentsLoading := true }).find?
      (fun q => q.id == i) = some { p0 with commentsLoading := true } :=
    find_of_findIndex _ _ _ _ hfL hgL
  have hbtnL : buttonDisabled
      (ps.set k0 { p0 with commentsLoading := true }) i = true := by
    simp [buttonDisabled, hfindL]
  have hstepLclick : step ⟨ps.set k0 { p0 with commentsLoading := true },
      [⟨i, k0, p0, ps.set k0 { p0 with commentsLoading := true }⟩]⟩
      (Event.click i) =
      ⟨ps.set k0 { p0 with commentsLoading := true },
       [⟨i, k0, p0, ps.set k0 { p0 with commentsLoading := true }⟩]⟩ := by
    simp [step, hbtnL]
  have hissueL : issuesFetchFor
      ⟨ps.set k0 { p0 with commentsLoading := true },
       [⟨i, k0, p0, ps.set k0 { p0 with commentsLoading := true }⟩]⟩
      (Event.click i) i = false := by
    simp [issuesFetchFor, hbtnL]
  have hstepLres0 : ∀ cs : List Comment,
      step ⟨ps.set k0 { p0 with commentsLoading := true },
            [⟨i, k0, p0, ps.set k0 { p0 with commentsLoading := true }⟩]⟩
        (Event.resolve 0 cs) =
      ⟨ps.set k0 { p0 with comments := some cs,
                           commentsLoading := false,
                           areCommentsVisible := true }, []⟩ := by
    intro cs
    simp [step, completeSuccess, List.set_set, List.get?, List.eraseIdx]
  have hstepLresS : ∀ (k : Nat) (cs : List Comment),
      step ⟨ps.set k0 { p0 with commentsLoading := true },
            [⟨i, k0, p0, ps.set k0 { p0 with commentsLoading := true }⟩]⟩
        (Event.resolve (k + 1) cs) =
      ⟨ps.set k0 { p0 with commentsLoading := true },
       [⟨i, k0, p0, ps.set k0 { p0 with commentsLoading := true }⟩]⟩ := by
    intro k cs
    simp [step, List.get?]
  have hfD : ∀ (cs : List Comment) (v : Bool),
      findIndex (fun q => q.id == i)
        (ps.set k0 { p0 with comments := some cs, commentsLoading := false,
                             areCommentsVisible := v }) = some k0 := by
    intro cs v
    exact findIndex_set _ _ k0 _ h1 hp
  have hgD : ∀ (cs : List Comment) (v : Bool),
      (ps.set k0 { p0 with comments := some cs, commentsLoading := false,
                           areCommentsVisible := v })[k0]? =
        some { p0 with comments := some cs, commentsLoading := false,
                       areCommentsVisible := v } := by
    intro cs v
    simpa using get_set_self ps k0 _ p0 h2
  have hfindD : ∀ (cs : List Comment) (v : Bool),
      (ps.set k0 { p0 with comments := some cs, commentsLoading := false,
                           areCommentsVisible := v }).find?
        (fun q => q.id == i) =
        some { p0 with comments := some cs, commentsLoading := false,
                       areCommentsVisible := v } := by
    intro cs v
    exact find_of_findIndex _ _ _ _ (hfD cs v) (get_set_self ps k0 _ p0 h2)
  have hbtnD : ∀ (cs : List Comment) (v : Bool),
      buttonDisabled
        (ps.set k0 { p0 with comments := some cs, commentsLoading := false,
                             areCommentsVisible := v }) i = false := by
    intro cs v
    simp [buttonDisabled, hfindD cs v]
  have hstepDclick : ∀ (cs : List Comment) (v : Bool),
      step ⟨ps.set k0 { p0 with comments := some cs, commentsLoading := false,
                                areCommentsVisible := v }, []⟩
        (Event.click i) =
      ⟨ps.set k0 { p0 with comments := some cs, commentsLoading := false,
                           areCommentsVisible := !v }, []⟩ := by
    intro cs v
    simp [step, hbtnD cs v, handleToggleComments, hfD cs v, hgD cs v,
      List.set_set]
  have hissueD : ∀ (cs : List Comment) (v : Bool),
      issuesFetchFor
        ⟨ps.set k0 { p0 with comments := some cs, commentsLoading := false,
                             areCommentsVisible := v }, []⟩
        (Event.click i) i = false := by
    intro cs v
    simp [issuesFetchFor, hbtnD cs v, handleToggleComments, hfD cs v, hgD cs v]
  have hstepDres : ∀ (cs : List Comment) (v : Bool) (k : Nat)
      (cs' : List Comment),
      step ⟨ps.set k0 { p0 with comments := some cs, commentsLoading := false,
                                areCommentsVisible := v }, []⟩
        (Event.resolve k cs') =
      ⟨ps.set k0 { p0 with comments := some cs, commentsLoading := false,
                           areCommentsVisible := v }, []⟩ := by
    intro cs v k cs'
    simp [step, List.get?]
  intro es
  induction es with
  | nil =>
      intro _
      exact ⟨by simp [countFetches], rfl, fun cs v => rfl⟩
  | cons e es ih =>
      intro hok
      cases e with
      | click j =>
          simp only [onlyItemNoFailure, List.all_cons, Bool.and_eq_true] at hok
          obtain ⟨hj, htail⟩ := hok
          have hj' : j = i := by simpa using hj
          subst hj'
          obtain ⟨ihA, ihL, ihD⟩ := ih htail
          refine ⟨?_, ?_, ?_⟩
          · rw [countFetches_cons, hissueA, hstepA]
            simp [ihL]
          · rw [countFetches_cons, hissueL, hstepLclick]
            simp [ihL]
          · intro cs v
            rw [countFetches_cons, hissueD cs v, hstepDclick cs v]
            simp [ihD cs (!v)]
      | resolve k cs0 =>
          simp only [onlyItemNoFailure, List.all_cons, Bool.and_eq_true] at hok
          obtain ⟨-, htail⟩ := hok
          obtain ⟨ihA, ihL, ihD⟩ := ih htail
          refine ⟨?_, ?_, ?_⟩
          · rw [countFetches_cons, hstepAres k cs0]
            simpa [issuesFetchFor] using ihA
          · cases k with
            | zero =>
                rw [countFetches_cons, hstepLres0 cs0]
                simpa [issuesFetchFor] using ihD cs0 true
            | succ kk =>
                rw [countFetches_cons, hstepLresS kk cs0]
                simpa [issuesFetchFor] using ihL
          · intro cs v
            rw [countFetches_cons, hstepDres cs v k cs0]
            simpa [issuesFetchFor] using ihD cs v
      | reject k =>
          simp [onlyItemNoFailure, List.all_cons] at hok

/-- Claim C1 (amended): a toggle click arriving while an item is in the
Loading state (`commentsLoading` true) is a no-op — the button is
disabled, so the state and the set of in-flight fetches are unchanged
and no second fetch is issued, hence the outcome of the in-flight fetch
is unaffected; and over any sequence of toggle events on a single item
id together with that item's fetch completions in which no fetch fails,
the comment fetch for that id is issued at most once.  (After a failed
fetch the item returns to `Absent` and a later toggle issues a new
fetch, so the unconditional at-most-once reading fails; see the
click / fail / click counterexample trace.) -/
theorem toggle_single_fetch_amended (i k0 : Nat)
    (p0 : PostWithAuthorAndComments) (ps : List PostWithAuthorAndComments)
    (h1 : findIndex (fun q => q.id == i) ps = some k0)
    (h2 : ps.get? k0 = some p0)
    (h3 : p0.comments = none)
    (h4 : p0.commentsLoading = false) :
    (∀ (s : Sys) (p : PostWithAuthorAndComments),
        s.posts.find? (fun q => q.id == i) = some p →
        p.commentsLoading = true →
        step s (Event.click i) = s ∧
        issuesFetchFor s (Event.click i) i = false) ∧
    (∀ es : List Event, onlyItemNoFailure i es = true →
        countFetches ⟨ps, []⟩ es i ≤ 1) := by
  constructor
  · intro s p hf hl
    constructor
    · simp [step, buttonDisabled, hf, hl]
    · simp [issuesFetchFor, buttonDisabled, hf, hl]
  · intro es hok
    exact (single_item_fetch_invariant i k0 p0 ps h1 h2 h3 h4 es hok).1

/-- Witness for `toggle_single_fetch_amended` at a concrete input: a
click on the loading item is a no-op, and a re-entrant double click
followed by a successful completion and a post-load toggle issues the
fetch exactly once. -/
theorem toggle_single_fetch_amended_witness :
    findIndex (fun q => q.id == 1)
      [({ id := 1, userId := 10, title := "t", body := "b", username := "u" } :
        PostWithAuthorAndComments)] = some 0 ∧
    step ⟨[{ id := 1, userId := 10, title := "t", body := "b", username := "u",
             comments := none, commentsLoading := true,
             areCommentsVisible := false }], []⟩ (Event.click 1) =
      ⟨[{ id := 1, userId := 10, title := "t", body := "b", username := "u",
          comments := none, commentsLoading := true,
          areCommentsVisible := false }], []⟩ ∧
    countFetches
      ⟨[{ id := 1, userId := 10, title := "t", body := "b", username := "u" }],
       []⟩
      [Event.click 1, Event.click 1, Event.resolve 0 [], Event.click 1] 1 ≤ 1 :=
  ⟨by decide,
   ((toggle_single_fetch_amended 1 0
      { id := 1, userId := 10, title := "t", body := "b", username := "u" }
      [{ id := 1, userId := 10, title := "t", body := "b", username := "u" }]
      (by decide) (by decide) (by decide) (by decide)).1
      ⟨[{ id := 1, userId := 10, title := "t", body := "b", username := "u",
          comments := none, commentsLoading := true,
          areCommentsVisible := false }], []⟩
      { id := 1, userId := 10, title := "t", body := "b", username := "u",
        comments := none, commentsLoading := true, areCommentsVisible := false }
      (by decide) (by decide)).1,
   (toggle_single_fetch_amended 1 0
      { id := 1, userId := 10, title := "t", body := "b", username := "u" }
      [{ id := 1, userId := 10, title := "t", body := "b", username := "u" }]
      (by decide) (by decide) (by decide) (by decide)).2
      [Event.click 1, Event.click 1, Event.resolve 0 [], Event.click 1]
      (by decide)⟩

end App
